import Mathlib

/-!
A shallow embedding of `src/util/Client.js` of the nodecord repository: a
Discord gateway client.  The stateful `Client` object becomes the record
`ClientState`; every observable action of a handler (frames written to the
socket, callbacks invoked, warnings logged, calls into `reconnect`) is
recorded in an explicit `Effect` trace returned next to the updated state.
JavaScript values that flow through the handlers (gateway payloads, the
`d` field of frames, field reads on parsed JSON) are modelled by `JVal`.
-/

/-- A JSON-like JavaScript value as it appears after `JSON.parse`.  `null`
also stands for `undefined` where the two are indistinguishable for the
behaviour modelled here (reads of absent fields). -/
inductive JVal where
  | null : JVal
  | bool : Bool → JVal
  | num  : Int → JVal
  | str  : String → JVal
  | obj  : List (String × JVal) → JVal

/-- Property read `v[k]` where a missing key or a non-object receiver gives
`undefined` (modelled as `.null`).  In JavaScript a read on `null` or
`undefined` itself throws; the handlers below only reach such reads at
places where the thrown error and the modelled no-op are observationally
identical for the state fields and effects studied here (see `jsProp` for
the one place where the throw itself is the observed behaviour). -/
def jsGetField (v : JVal) (k : String) : JVal :=
  match v with
  | .obj fs => (fs.lookup k).getD .null
  | _ => .null

/-- Property read that models the JavaScript exception: reading any property
of `null`/`undefined` throws a TypeError. -/
def jsProp (v : JVal) (k : String) : Except String JVal :=
  match v with
  | .null => .error ("TypeError: cannot read properties of null (reading " ++ k ++ ")")
  | .obj fs => .ok ((fs.lookup k).getD .null)
  | _ => .ok .null

/-- JavaScript truthiness of a value. -/
def jsTruthy : JVal → Bool
  | .null => false
  | .bool b => b
  | .num n => n != 0
  | .str s => s != ""
  | .obj _ => true

/-- JavaScript strict equality `v === n` against a number literal (the only
form of `===` on `JVal` the source uses, in `channelObj.type === 2`). -/
def jsTripleEqNum (v : JVal) (n : Int) : Bool :=
  match v with
  | .num m => m == n
  | _ => false

/-- The string used when a value becomes a JavaScript object key
(`this.guilds[data.id] = data`). -/
def jsKeyString : JVal → String
  | .null => "null"
  | .bool true => "true"
  | .bool false => "false"
  | .num n => toString n
  | .str s => s
  | .obj _ => "[object Object]"

/-- `String.prototype.substr(start, length)` over the character list. -/
def jsSubstr (s : String) (start length : Int) : String :=
  let size : Int := s.data.length
  let intStart : Int := if start < 0 then max (size + start) 0 else min start size
  let intLength : Int := min (max length 0) (size - intStart)
  String.mk ((s.data.drop intStart.toNat).take intLength.toNat)

/-- `String.prototype.indexOf(ch)`: first index of the character, `-1` when
absent. -/
def jsIndexOf (s : String) (ch : Char) : Int :=
  match s.data.findIdx? (fun c => c = ch) with
  | some i => (i : Int)
  | none => -1

/-- `String.prototype.split(sep)` for a one-character separator.  Splitting
never yields an empty list: the empty string splits to `[""]`. -/
def jsSplitChar (sep : Char) : List Char → List (List Char)
  | [] => [[]]
  | c :: cs =>
    match jsSplitChar sep cs with
    | [] => [[c]]
    | g :: gs => if c = sep then [] :: g :: gs else (c :: g) :: gs

/-- `command.split(sep)[0]`; the split is never empty so the `""` default is
never taken. -/
def jsSplitHead (sep : Char) (s : String) : String :=
  match jsSplitChar sep s.data with
  | [] => ""
  | g :: _ => String.mk g

/-- `String.prototype.toLowerCase()` (ASCII, as all command words are). -/
def jsToLower (s : String) : String :=
  String.mk (s.data.map Char.toLower)

/-- `String.prototype.toUpperCase()` followed by `replaceAll(' ', '_')`, the
normalisation `onEvent` applies to event names. -/
def jsEventName (s : String) : String :=
  String.mk ((s.data.map Char.toUpper).map (fun ch => if ch = ' ' then '_' else ch))

/-- JavaScript object assignment `o[k] = v` on an association list:
overwrite the existing binding, else append. -/
def assocSet {α : Type} (l : List (String × α)) (k : String) (v : α) : List (String × α) :=
  if l.any (fun p => p.1 = k) then
    l.map (fun p => if p.1 = k then (k, v) else p)
  else
    l ++ [(k, v)]

/-- An inbound gateway frame as parsed from the wire: `{op, d, s, t}`.
`s` is kept as a raw `JVal` because the source assigns `obj.s` to
`lastSequenceNum` without inspection; `t` is the event name when present. -/
structure Frame where
  op : Int
  d : JVal
  s : JVal
  t : Option String

/-- One observable action of a handler.  `send op d` is
`this._sendOpcode(op, d)` (every call site of `_sendOpcode` in the source
leaves the frame fields `s` and `t` at their `null` defaults);
`reconnectCall` marks entry into `reconnect()`; `socketEnd` is
`this.socket.end()`; `invokeEvent`/`invokeCommand` are invocations of a
registered dispatch or command callback, identified by a numeric id;
`log` records a diagnostic line. -/
inductive Effect where
  | send (op : Int) (d : JVal)
  | reconnectCall
  | socketEnd
  | invokeEvent (cb : Nat) (data : JVal)
  | invokeCommand (cb : Nat) (data : JVal) (rest : String)
  | log (msg : String)

/-- The mutable fields of the `Client` object that the gateway handlers
touch.  Callbacks are identified by numeric ids.  Live `setInterval` timers
are modelled explicitly: `timers` holds the ids of every timer currently
armed, `heartbeatIntervalObj` is the handle the client stores (the source
field of the same name), `nextTimer` is the next fresh handle. -/
structure ClientState where
  token : String
  intents : JVal
  lastSequenceNum : JVal
  heartbeatAcknowledged : Bool
  sessionID : JVal
  resuming : Bool
  commandChar : Char
  dispatchCallbacks : List (String × Nat)
  commandCallbacks : List (String × Nat)
  guilds : List (String × JVal)
  me : JVal
  socket : Bool
  heartbeatIntervalObj : Option Nat
  timers : List Nat
  nextTimer : Nat

/-- The state the constructor builds (after `_gatewayConnect` has opened the
socket): `lastSequenceNum = null`, `heartbeatAcknowledged = true`,
`sessionID = null`, `resuming = false`, `commandChar = '!'`, empty
registries. -/
def initialClient (token : String) (intents : JVal) : ClientState :=
  { token := token
    intents := intents
    lastSequenceNum := .null
    heartbeatAcknowledged := true
    sessionID := .null
    resuming := false
    commandChar := '!'
    dispatchCallbacks := []
    commandCallbacks := []
    guilds := []
    me := .null
    socket := true
    heartbeatIntervalObj := none
    timers := []
    nextTimer := 0 }

/-- `clearInterval(handle)`: the timer with that handle stops; clearing a
`null` handle is a no-op. -/
def clearTimers (timers : List Nat) : Option Nat → List Nat
  | none => timers
  | some h => timers.filter (fun t => t ≠ h)

namespace Client

/-- `reconnect()`: set `resuming`, cancel the heartbeat timer, reset
`heartbeatAcknowledged`, and start `_gatewayConnect` (whose asynchronous
socket replacement does not touch the fields modelled here). -/
def reconnect (c : ClientState) : ClientState × List Effect :=
  ({ c with
      resuming := true
      timers := clearTimers c.timers c.heartbeatIntervalObj
      heartbeatAcknowledged := true },
   [Effect.reconnectCall])

/-- `_heartbeat()`: on a missed acknowledgement reconnect, otherwise mark
the new heartbeat outstanding and send opcode 1 with `lastSequenceNum`. -/
def _heartbeat (c : ClientState) : ClientState × List Effect :=
  if c.heartbeatAcknowledged = false then
    ((reconnect c).1, Effect.log "No heartbeat ACK. Reconnecting" :: (reconnect c).2)
  else
    ({ c with heartbeatAcknowledged := false },
     [Effect.send 1 c.lastSequenceNum])

/-- `_handleDispatch(dispatchName, data)`: emit the registered event
callback, then the built-in switch on the event name. -/
def _handleDispatch (c : ClientState) (dispatchName : Option String) (data : JVal) :
    ClientState × List Effect :=
  let emit : List Effect :=
    match dispatchName with
    | some n =>
      match c.dispatchCallbacks.lookup n with
      | some cb => [Effect.invokeEvent cb data]
      | none => []
    | none => []
  if dispatchName = some "READY" then
    ({ c with sessionID := jsGetField data "session_id", me := jsGetField data "user" }, emit)
  else if dispatchName = some "GUILD_CREATE" then
    ({ c with guilds := assocSet c.guilds (jsKeyString (jsGetField data "id")) data }, emit)
  else if dispatchName = some "MESSAGE_CREATE" then
    match jsGetField data "content" with
    | .str msg =>
      if msg.data.head? = some c.commandChar then
        let command := jsSubstr msg 1 ((msg.data.length : Int) - 1)
        let commandWord := jsToLower (jsSplitHead ' ' command)
        let firstSpace := jsIndexOf command ' '
        let len : Int := (command.data.length : Int) - firstSpace
        let restOfCommand := jsSubstr command (firstSpace + 1) len
        match c.commandCallbacks.lookup commandWord with
        | some cb => (c, emit ++ [Effect.invokeCommand cb data restOfCommand])
        | none => (c, emit)
      else
        (c, emit)
    | _ => (c, emit)
  else if dispatchName = some "RESUMED" then
    ({ c with resuming := false }, emit)
  else
    (c, emit)

/-- The Identify payload `_handleHello` sends when not resuming (opcode 2). -/
def identifyPayload (c : ClientState) : JVal :=
  .obj
    [("token", .str c.token),
     ("intents", c.intents),
     ("properties", .obj []),
     ("compress", .bool false),
     ("large_threshold", .num 100),
     ("presence", .obj
       [("since", .null),
        ("status", .str "online"),
        ("game", .null),
        ("afk", .bool false)])]

/-- The Resume payload `_handleHello` sends when resuming (opcode 6). -/
def resumePayload (c : ClientState) : JVal :=
  .obj
    [("token", .str c.token),
     ("session_id", c.sessionID),
     ("seq", c.lastSequenceNum)]

/-- `_handleHello(interval)`: arm a fresh heartbeat timer (the source calls
`setInterval` and overwrites `heartbeatIntervalObj` without any
`clearInterval`), then send Identify or Resume on `resuming`. -/
def _handleHello (c : ClientState) (_interval : JVal) : ClientState × List Effect :=
  let c' : ClientState :=
    { c with
        heartbeatIntervalObj := some c.nextTimer
        timers := c.timers ++ [c.nextTimer]
        nextTimer := c.nextTimer + 1 }
  if c'.resuming = false then
    (c', [Effect.send 2 (identifyPayload c')])
  else
    (c', [Effect.send 6 (resumePayload c')])

end Client

/-- The opcode table `GatewayOpcodes` of the source, as a lookup from the
integer opcode to the name the switch statement compares against. -/
def gatewayOpName (op : Int) : Option String :=
  if op = 0 then some "Dispatch"
  else if op = 1 then some "Heartbeat"
  else if op = 2 then some "Identify"
  else if op = 3 then some "Status Update"
  else if op = 4 then some "Voice State Update"
  else if op = 5 then some "Voice Server Ping"
  else if op = 6 then some "Resume"
  else if op = 7 then some "Reconnect"
  else if op = 8 then some "Request Guild Members"
  else if op = 9 then some "Invalid Session"
  else if op = 10 then some "Hello"
  else if op = 11 then some "Heartbeat ACK"
  else none

namespace Client

/-- `_handleGatewayObject(obj)`: the switch on the opcode name. -/
def _handleGatewayObject (c : ClientState) (obj : Frame) : ClientState × List Effect :=
  let opName := gatewayOpName obj.op
  if opName = some "Dispatch" then
    _handleDispatch { c with lastSequenceNum := obj.s } obj.t obj.d
  else if opName = some "Heartbeat" then
    _heartbeat c
  else if opName = some "Reconnect" then
    reconnect c
  else if opName = some "Invalid Session" then
    (c, if c.socket then [Effect.socketEnd] else [])
  else if opName = some "Hello" then
    _handleHello c (jsGetField obj.d "heartbeat_interval")
  else if opName = some "Heartbeat ACK" then
    ({ c with heartbeatAcknowledged := true }, [])
  else
    (c, [])

/-- `registerCommand(keyWord, callback)`. -/
def registerCommand (c : ClientState) (keyWord : String) (cb : Nat) : ClientState :=
  { c with commandCallbacks := assocSet c.commandCallbacks (jsToLower keyWord) cb }

/-- `onEvent(eventName, callback)`. -/
def onEvent (c : ClientState) (eventName : String) (cb : Nat) : ClientState :=
  { c with dispatchCallbacks := assocSet c.dispatchCallbacks (jsEventName eventName) cb }

end Client

/-- The `data` listener `_gatewayConnect` attaches to the socket: the
outcome of `JSON.parse(data)` is passed in (`none` models the parse
throwing), and the catch block only logs. -/
def socketDataHandler (c : ClientState) (parsed : Option Frame) : ClientState × List Effect :=
  match parsed with
  | some obj => Client._handleGatewayObject c obj
  | none => (c, [Effect.log "Couldn't handle a gateway object"])

/-- The outcome of an awaited `_apiRequest` call (its code lives in
`src/util/Discord.js`, which is not among the repository files provided).
Modelled from the spec: the Request Client performs
`request(method, path, body?) -> response | fails`, a failure rejecting
the awaited promise; a resolved response is a `JVal` (with `JVal.null`
covering a null-ish response body). -/
inductive ApiResult where
  | failure
  | value (v : JVal)

namespace Client

/-- `joinVoiceChannel(channelID, selfMute, selfDeaf)`: the awaited channel
lookup, then `const guildID = channelObj.guild_id` (a throwing read when
the lookup resolved to `null`), then the truthiness and type checks.
`Except.error` is a rejection of the returned promise. -/
def joinVoiceChannel (c : ClientState) (lookupResult : ApiResult)
    (channelID : String) (selfMute selfDeaf : Bool) :
    Except String (ClientState × List Effect) := do
  let channelObj ← match lookupResult with
    | ApiResult.failure => Except.error "apiRequest rejected"
    | ApiResult.value v => Except.ok v
  let _guildID ← jsProp channelObj "guild_id"
  if jsTruthy channelObj then
    if jsTripleEqNum (jsGetField channelObj "type") 2 then
      pure (c, [Effect.send 4 (JVal.obj
        [("guild_id", jsGetField channelObj "guild_id"),
         ("channel_id", JVal.str channelID),
         ("self_mute", JVal.bool selfMute),
         ("self_deaf", JVal.bool selfDeaf)])])
    else
      pure (c, [Effect.log "joinVoiceChannel called on a non-voice channel"])
  else
    pure (c, [Effect.log "joinVoiceChannel called with an invalid channel ID"])

end Client

/-- The frames written to the socket within a trace: `(op, d)` of every
`send` effect, in order. -/
def sentFrames (effs : List Effect) : List (Int × JVal) :=
  effs.filterMap (fun e =>
    match e with
    | Effect.send op d => some (op, d)
    | _ => none)

/-- Process a list of inbound frames in order. -/
def runFrames (c : ClientState) : List Frame → ClientState
  | [] => c
  | f :: fs => runFrames (Client._handleGatewayObject c f).1 fs

/-- The `s` field of the most recently processed Dispatch (opcode 0) frame
of a list, starting from `init`. -/
def lastDispatchS (init : JVal) : List Frame → JVal
  | [] => init
  | f :: fs => lastDispatchS (if f.op = 0 then f.s else init) fs

/-! ## Helper lemmas -/

theorem reconnect_lastSeq (c : ClientState) :
    (Client.reconnect c).1.lastSequenceNum = c.lastSequenceNum := rfl

theorem heartbeat_lastSeq (c : ClientState) :
    (Client._heartbeat c).1.lastSequenceNum = c.lastSequenceNum := by
  unfold Client._heartbeat
  split_ifs <;> rfl

theorem handleHello_lastSeq (c : ClientState) (i : JVal) :
    (Client._handleHello c i).1.lastSequenceNum = c.lastSequenceNum := by
  by_cases h : c.resuming = false <;> simp [Client._handleHello, h]

theorem handleDispatch_lastSeq (c : ClientState) (t : Option String) (d : JVal) :
    (Client._handleDispatch c t d).1.lastSequenceNum = c.lastSequenceNum := by
  simp only [Client._handleDispatch]
  repeat' split
  all_goals rfl

theorem handleGateway_lastSeq (c : ClientState) (f : Frame) :
    (Client._handleGatewayObject c f).1.lastSequenceNum =
      if f.op = 0 then f.s else c.lastSequenceNum := by
  by_cases h0 : f.op = 0
  · simp [Client._handleGatewayObject, gatewayOpName, h0, handleDispatch_lastSeq]
  · rw [if_neg h0]
    by_cases h1 : f.op = 1
    · simp [Client._handleGatewayObject, gatewayOpName, h0, h1, heartbeat_lastSeq]
    · by_cases h7 : f.op = 7
      · simp [Client._handleGatewayObject, gatewayOpName, h0, h1, h7, reconnect_lastSeq]
      · by_cases h9 : f.op = 9
        · simp [Client._handleGatewayObject, gatewayOpName, h0, h1, h7, h9]
        · by_cases h10 : f.op = 10
          · simp [Client._handleGatewayObject, gatewayOpName, h0, h1, h7, h9, h10,
              handleHello_lastSeq]
          · by_cases h11 : f.op = 11
            · simp [Client._handleGatewayObject, gatewayOpName, h0, h1, h7, h9, h10, h11]
            · by_cases h2 : f.op = 2 <;> by_cases h3 : f.op = 3 <;>
                by_cases h4 : f.op = 4 <;> by_cases h5 : f.op = 5 <;>
                by_cases h6 : f.op = 6 <;> by_cases h8 : f.op = 8 <;>
                simp_all [Client._handleGatewayObject, gatewayOpName]

theorem dispatch_sends_nothing (c : ClientState) (t : Option String) (d : JVal) :
    sentFrames (Client._handleDispatch c t d).2 = [] := by
  simp only [Client._handleDispatch]
  repeat' split
  all_goals simp [sentFrames]

theorem resumePayload_session_id (c : ClientState) :
    jsGetField (Client.resumePayload c) "session_id" = c.sessionID := rfl

theorem resumePayload_seq (c : ClientState) :
    jsGetField (Client.resumePayload c) "seq" = c.lastSequenceNum := rfl

theorem identifyPayload_compress (c : ClientState) :
    jsGetField (Client.identifyPayload c) "compress" = JVal.bool false := rfl

theorem identifyPayload_large_threshold (c : ClientState) :
    jsGetField (Client.identifyPayload c) "large_threshold" = JVal.num 100 := rfl

theorem identifyPayload_presence (c : ClientState) :
    jsGetField (Client.identifyPayload c) "presence" =
      JVal.obj
        [("since", JVal.null),
         ("status", JVal.str "online"),
         ("game", JVal.null),
         ("afk", JVal.bool false)] := rfl

/-! ## Concrete fixtures used by witnesses and counterexamples -/

def testClient : ClientState := initialClient "token" (JVal.num 0)

def unackedClient : ClientState := { testClient with heartbeatAcknowledged := false }

def pingClient : ClientState := Client.registerCommand testClient "ping" 0

def pingData : JVal := JVal.obj [("content", JVal.str "!ping")]

def pingFrame : Frame := { op := 0, s := JVal.num 7, t := some "MESSAGE_CREATE", d := pingData }

def helloFrame : Frame :=
  { op := 10, d := JVal.obj [("heartbeat_interval", JVal.num 45000)], s := JVal.null, t := none }

def hbRequestFrame : Frame := { op := 1, s := JVal.null, t := none, d := JVal.null }

def ackFrame : Frame := { op := 11, s := JVal.null, t := none, d := JVal.null }

def emptyMsgData : JVal := JVal.obj [("content", JVal.str "")]

def voiceChannelObj : JVal := JVal.obj [("type", JVal.num 2), ("guild_id", JVal.str "g1")]

def textChannelObj : JVal := JVal.obj [("type", JVal.num 0), ("guild_id", JVal.str "g1")]

/-! ## The claims -/

/-- C1: over any sequence of frames processed by `_handleGatewayObject`,
`lastSequenceNum` equals the `s` field of the most recently processed
Dispatch (opcode 0) frame, and a frame of any other opcode leaves
`lastSequenceNum` unchanged. -/
theorem lastSequenceNum_tracks_dispatch (c : ClientState) (fs : List Frame) (f : Frame) :
    (runFrames c fs).lastSequenceNum = lastDispatchS c.lastSequenceNum fs ∧
    (f.op ≠ 0 →
      (Client._handleGatewayObject c f).1.lastSequenceNum = c.lastSequenceNum) := by
  constructor
  · induction fs generalizing c with
    | nil => rfl
    | cons g gs ih =>
      simp only [runFrames, lastDispatchS]
      rw [ih, handleGateway_lastSeq]
  · intro h
    rw [handleGateway_lastSeq, if_neg h]

theorem lastSequenceNum_tracks_dispatch_witness :
    (runFrames testClient [helloFrame, pingFrame]).lastSequenceNum
      = lastDispatchS testClient.lastSequenceNum [helloFrame, pingFrame] ∧
    ackFrame.op ≠ 0 ∧
    (Client._handleGatewayObject testClient ackFrame).1.lastSequenceNum
      = testClient.lastSequenceNum :=
  ⟨(lastSequenceNum_tracks_dispatch testClient [helloFrame, pingFrame] ackFrame).1,
   by decide,
   (lastSequenceNum_tracks_dispatch testClient [helloFrame, pingFrame] ackFrame).2 (by decide)⟩

/-- C2: a heartbeat tick with an unacknowledged heartbeat outstanding calls
`reconnect()` and writes no frame; otherwise it clears
`heartbeatAcknowledged` and sends exactly one opcode-1 frame whose payload
is the current `lastSequenceNum`. -/
theorem heartbeat_tick_spec (c : ClientState) :
    (c.heartbeatAcknowledged = false →
      Effect.reconnectCall ∈ (Client._heartbeat c).2 ∧
      sentFrames (Client._heartbeat c).2 = [] ∧
      (Client._heartbeat c).1 = (Client.reconnect c).1) ∧
    (c.heartbeatAcknowledged = true →
      (Client._heartbeat c).1 = { c with heartbeatAcknowledged := false } ∧
      (Client._heartbeat c).2 = [Effect.send 1 c.lastSequenceNum]) := by
  constructor
  · intro h
    refine ⟨?_, ?_, ?_⟩ <;> simp [Client._heartbeat, h, Client.reconnect, sentFrames]
  · intro h
    constructor <;> simp [Client._heartbeat, h]

theorem heartbeat_tick_spec_witness :
    (unackedClient.heartbeatAcknowledged = false ∧
      Effect.reconnectCall ∈ (Client._heartbeat unackedClient).2 ∧
      sentFrames (Client._heartbeat unackedClient).2 = [] ∧
      (Client._heartbeat unackedClient).1 = (Client.reconnect unackedClient).1) ∧
    (testClient.heartbeatAcknowledged = true ∧
      (Client._heartbeat testClient).1 = { testClient with heartbeatAcknowledged := false } ∧
      (Client._heartbeat testClient).2 = [Effect.send 1 testClient.lastSequenceNum]) :=
  ⟨⟨rfl, (heartbeat_tick_spec unackedClient).1 rfl⟩,
   ⟨rfl, (heartbeat_tick_spec testClient).2 rfl⟩⟩

/-- C5 (evaluating the code at the sequence-7 "!ping" Dispatch with the
"ping" command registered): `lastSequenceNum` does become 7 and the
callback is invoked, but the remainder passed to it is "ping", not ""
(with no space in the message, `indexOf` returns -1 and
`substr(firstSpace + 1, len)` returns the whole command word). -/
theorem ping_command_remainder_eval :
    (Client._handleGatewayObject pingClient pingFrame).1.lastSequenceNum = JVal.num 7 ∧
    (Client._handleGatewayObject pingClient pingFrame).2
      = [Effect.invokeCommand 0 pingData "ping"] ∧
    (Client._handleGatewayObject pingClient pingFrame).2
      ≠ [Effect.invokeCommand 0 pingData ""] := by
  refine ⟨rfl, rfl, ?_⟩
  intro h
  rw [show (Client._handleGatewayObject pingClient pingFrame).2
        = [Effect.invokeCommand 0 pingData "ping"] from rfl] at h
  simp at h

/-- C6 counterexample: an opcode-1 (server Heartbeat request) frame arriving
while the previous heartbeat is unacknowledged does NOT make the client send
a heartbeat: it logs, reconnects, and writes nothing. -/
theorem server_heartbeat_skipped_when_unacked :
    sentFrames (Client._handleGatewayObject unackedClient hbRequestFrame).2 = [] ∧
    (Client._handleGatewayObject unackedClient hbRequestFrame).2
      = [Effect.log "No heartbeat ACK. Reconnecting", Effect.reconnectCall] :=
  ⟨rfl, rfl⟩

/-- C7: when `JSON.parse` fails on an inbound payload, the data handler
leaves the state untouched, writes nothing, does not end the socket, does
not reconnect, and only logs. -/
theorem malformed_frame_is_dropped (c : ClientState) :
    (socketDataHandler c none).1 = c ∧
    (socketDataHandler c none).2 = [Effect.log "Couldn't handle a gateway object"] ∧
    sentFrames (socketDataHandler c none).2 = [] ∧
    Effect.socketEnd ∉ (socketDataHandler c none).2 ∧
    Effect.reconnectCall ∉ (socketDataHandler c none).2 := by
  refine ⟨rfl, rfl, rfl, ?_, ?_⟩ <;> simp [socketDataHandler]

/-- C8 (evaluating the code at its failure inputs): a lookup that resolves
to null throws a TypeError at `channelObj.guild_id` before the
invalid-channel warning branch can run, and a rejected lookup propagates the
rejection to the caller; only the two resolved-object paths behave as the
claim says (one opcode-4 frame for a voice channel, a warning and no frame
otherwise). -/
theorem joinVoiceChannel_failure_paths_eval :
    Client.joinVoiceChannel testClient (ApiResult.value JVal.null) "123" false false
      = Except.error "TypeError: cannot read properties of null (reading guild_id)" ∧
    Client.joinVoiceChannel testClient ApiResult.failure "123" false false
      = Except.error "apiRequest rejected" ∧
    Client.joinVoiceChannel testClient (ApiResult.value voiceChannelObj) "123" true false
      = Except.ok (testClient, [Effect.send 4 (JVal.obj
          [("guild_id", JVal.str "g1"), ("channel_id", JVal.str "123"),
           ("self_mute", JVal.bool true), ("self_deaf", JVal.bool false)])]) ∧
    Client.joinVoiceChannel testClient (ApiResult.value textChannelObj) "123" false false
      = Except.ok (testClient, [Effect.log "joinVoiceChannel called on a non-voice channel"]) :=
  ⟨rfl, rfl, rfl, rfl⟩

/-- C10: a MESSAGE_CREATE dispatch whose content is the empty string invokes
no command callback: the first-character read yields no character
(JavaScript: undefined), which never equals the command prefix, so the
command branch is skipped, whatever the registered commands and prefix. -/
theorem empty_message_invokes_no_command (c : ClientState) (d : JVal)
    (h : jsGetField d "content" = JVal.str "") :
    ∀ cb data rest,
      Effect.invokeCommand cb data rest ∉
        (Client._handleDispatch c (some "MESSAGE_CREATE") d).2 := by
  intro cb data rest
  simp only [Client._handleDispatch, h]
  cases hl : c.dispatchCallbacks.lookup "MESSAGE_CREATE" <;>
    simp [hl, show ("" : String).data = [] from rfl]

theorem empty_message_invokes_no_command_witness :
    jsGetField emptyMsgData "content" = JVal.str "" ∧
    Effect.invokeCommand 0 JVal.null "" ∉
      (Client._handleDispatch testClient (some "MESSAGE_CREATE") emptyMsgData).2 :=
  ⟨rfl, empty_message_invokes_no_command testClient emptyMsgData rfl 0 JVal.null ""⟩

/-- Case analysis of `_handleGatewayObject` by opcode, resolving the
opcode-name table. -/
theorem handleGateway_cases (c : ClientState) (f : Frame) :
    Client._handleGatewayObject c f =
      if f.op = 0 then Client._handleDispatch { c with lastSequenceNum := f.s } f.t f.d
      else if f.op = 1 then Client._heartbeat c
      else if f.op = 7 then Client.reconnect c
      else if f.op = 9 then (c, if c.socket then [Effect.socketEnd] else [])
      else if f.op = 10 then Client._handleHello c (jsGetField f.d "heartbeat_interval")
      else if f.op = 11 then ({ c with heartbeatAcknowledged := true }, [])
      else (c, []) := by
  by_cases h0 : f.op = 0
  · simp [Client._handleGatewayObject, gatewayOpName, h0]
  · rw [if_neg h0]
    by_cases h1 : f.op = 1
    · simp [Client._handleGatewayObject, gatewayOpName, h0, h1]
    · rw [if_neg h1]
      by_cases h7 : f.op = 7
      · simp [Client._handleGatewayObject, gatewayOpName, h0, h1, h7]
      · rw [if_neg h7]
        by_cases h9 : f.op = 9
        · simp [Client._handleGatewayObject, gatewayOpName, h0, h1, h7, h9]
        · rw [if_neg h9]
          by_cases h10 : f.op = 10
          · simp [Client._handleGatewayObject, gatewayOpName, h0, h1, h7, h9, h10]
          · rw [if_neg h10]
            by_cases h11 : f.op = 11
            · simp [Client._handleGatewayObject, gatewayOpName, h0, h1, h7, h9, h10, h11]
            · rw [if_neg h11]
              by_cases h2 : f.op = 2 <;> by_cases h3 : f.op = 3 <;>
                by_cases h4 : f.op = 4 <;> by_cases h5 : f.op = 5 <;>
                by_cases h6 : f.op = 6 <;> by_cases h8 : f.op = 8 <;>
                simp_all [Client._handleGatewayObject, gatewayOpName]

/-- C3: on a Hello, an Identify frame (opcode 2) is sent iff `resuming` is
false, a Resume frame (opcode 6) is sent iff `resuming` is true, and the
Resume payload carries exactly the stored `sessionID` and the stored
`lastSequenceNum`. -/
theorem hello_identify_xor_resume (c : ClientState) (i : JVal) :
    ((∃ d, Effect.send 2 d ∈ (Client._handleHello c i).2) ↔ c.resuming = false) ∧
    ((∃ d, Effect.send 6 d ∈ (Client._handleHello c i).2) ↔ c.resuming = true) ∧
    (∀ d, Effect.send 6 d ∈ (Client._handleHello c i).2 →
      jsGetField d "session_id" = c.sessionID ∧
      jsGetField d "seq" = c.lastSequenceNum) := by
  by_cases h : c.resuming = false <;>
    simp [Client._handleHello, h, resumePayload_session_id, resumePayload_seq,
      Bool.not_eq_false]

theorem hello_identify_xor_resume_witness :
    Effect.send 6 (Client.resumePayload { testClient with
        resuming := true, sessionID := JVal.str "sess", lastSequenceNum := JVal.num 42 })
      ∈ (Client._handleHello { testClient with
        resuming := true, sessionID := JVal.str "sess", lastSequenceNum := JVal.num 42 }
          (JVal.num 45000)).2 ∧
    jsGetField (Client.resumePayload { testClient with
        resuming := true, sessionID := JVal.str "sess", lastSequenceNum := JVal.num 42 })
      "session_id" = JVal.str "sess" ∧
    jsGetField (Client.resumePayload { testClient with
        resuming := true, sessionID := JVal.str "sess", lastSequenceNum := JVal.num 42 })
      "seq" = JVal.num 42 := by
  refine ⟨List.Mem.head _, ?_⟩
  exact (hello_identify_xor_resume { testClient with
      resuming := true, sessionID := JVal.str "sess", lastSequenceNum := JVal.num 42 }
    (JVal.num 45000)).2.2 _ (List.Mem.head _)

/-- At most one live heartbeat timer, and the stored handle owns it when one
exists. -/
def timerInv (c : ClientState) : Prop :=
  c.timers = [] ∨ ∃ h, c.timers = [h] ∧ c.heartbeatIntervalObj = some h

/-- C4 counterexample: `_handleHello` does not cancel the previously armed
timer — two Hello frames on the same connection leave both timers running
(`setInterval` is called and `heartbeatIntervalObj` overwritten with no
`clearInterval` in `_handleHello`). -/
theorem hello_leaves_old_timer_running :
    ((Client._handleGatewayObject
        (Client._handleGatewayObject testClient helloFrame).1 helloFrame).1).timers
      = [0, 1] ∧
    ((Client._handleGatewayObject
        (Client._handleGatewayObject testClient helloFrame).1 helloFrame).1).timers.length
      = 2 :=
  ⟨rfl, rfl⟩

/-- C4 amended: `_handleHello` arms a fresh timer WITHOUT canceling the old
one; the cancellation lives in `reconnect()` (and in the transport end
handler), so from a state with at most one live timer owned by the stored
handle, a reconnect followed by the Hello of the new connection ends with
exactly one live timer and the invariant re-established — repeated
reconnect/Hello cycles never accumulate timers, but a second Hello on one
connection does. -/
theorem hello_timer_discipline (c : ClientState) (i j : JVal) (hInv : timerInv c) :
    (Client._handleHello c i).1.timers = c.timers ++ [c.nextTimer] ∧
    (Client._handleHello (Client.reconnect c).1 j).1.timers = [c.nextTimer] ∧
    timerInv (Client._handleHello (Client.reconnect c).1 j).1 := by
  have hempty : clearTimers c.timers c.heartbeatIntervalObj = [] := by
    rcases hInv with h0 | ⟨h, ht, ho⟩
    · cases hh : c.heartbeatIntervalObj <;> simp [clearTimers, h0, hh]
    · simp [clearTimers, ht, ho]
  refine ⟨?_, ?_, ?_⟩
  · by_cases h : c.resuming = false <;> simp [Client._handleHello, h]
  · by_cases h : (Client.reconnect c).1.resuming = false <;>
      simp [Client._handleHello, Client.reconnect, h, hempty]
  · refine Or.inr ⟨c.nextTimer, ?_, ?_⟩ <;>
      by_cases h : (Client.reconnect c).1.resuming = false <;>
      simp [Client._handleHello, Client.reconnect, h, hempty]

theorem hello_timer_discipline_witness :
    timerInv testClient ∧
    (Client._handleHello testClient JVal.null).1.timers
      = testClient.timers ++ [testClient.nextTimer] ∧
    (Client._handleHello (Client.reconnect testClient).1 JVal.null).1.timers
      = [testClient.nextTimer] ∧
    timerInv (Client._handleHello (Client.reconnect testClient).1 JVal.null).1 :=
  ⟨Or.inl rfl, hello_timer_discipline testClient JVal.null JVal.null (Or.inl rfl)⟩

/-- C6 amended: an inbound opcode-1 frame runs the heartbeat tick routine,
so the client answers with a heartbeat only when the previous heartbeat was
acknowledged; with an unacknowledged heartbeat outstanding it reconnects
and sends nothing. -/
theorem server_heartbeat_runs_tick (c : ClientState) (f : Frame) (hop : f.op = 1) :
    (c.heartbeatAcknowledged = true →
      (Client._handleGatewayObject c f).2 = [Effect.send 1 c.lastSequenceNum]) ∧
    (c.heartbeatAcknowledged = false →
      sentFrames (Client._handleGatewayObject c f).2 = [] ∧
      Effect.reconnectCall ∈ (Client._handleGatewayObject c f).2) := by
  rw [handleGateway_cases]
  simp only [hop]
  norm_num
  constructor
  · intro h
    simp [Client._heartbeat, h]
  · intro h
    refine ⟨?_, ?_⟩ <;> simp [Client._heartbeat, h, Client.reconnect, sentFrames]

theorem server_heartbeat_runs_tick_witness :
    hbRequestFrame.op = 1 ∧
    testClient.heartbeatAcknowledged = true ∧
    (Client._handleGatewayObject testClient hbRequestFrame).2
      = [Effect.send 1 testClient.lastSequenceNum] :=
  ⟨rfl, rfl, (server_heartbeat_runs_tick testClient hbRequestFrame rfl).1 rfl⟩

/-- The key list of a JSON object, for comparing payload shapes. -/
def objKeys : JVal → List String
  | .obj fs => fs.map (fun p => p.1)
  | _ => []

/-- The initial presence object exactly as the specification words it, kept
for comparison with the object the code builds. -/
def specInitialPresence : JVal :=
  JVal.obj
    [("since", JVal.null),
     ("status", JVal.str "online"),
     ("activity", JVal.null),
     ("afk", JVal.bool false)]

/-- C9 counterexample: the Identify frame actually sent on a first Hello
carries a presence object whose third field is keyed "game", so the
presence is not the claimed `{since: null, status: "online",
activity: null, afk: false}` object. -/
theorem identify_presence_differs_from_spec :
    sentFrames (Client._handleGatewayObject testClient helloFrame).2
      = [(2, Client.identifyPayload testClient)] ∧
    objKeys (jsGetField (Client.identifyPayload testClient) "presence")
      = ["since", "status", "game", "afk"] ∧
    jsGetField (Client.identifyPayload testClient) "presence" ≠ specInitialPresence := by
  refine ⟨rfl, rfl, ?_⟩
  intro h
  exact absurd (congrArg objKeys h) (by decide)

/-- C9 amended: every Identify (opcode 2) frame the gateway handler sends
carries compress = false, large_threshold = 100, and the initial presence
`{since: null, status: "online", game: null, afk: false}` — the field the
claim names "activity" is keyed "game" by the code. -/
theorem identify_payload_fields (c : ClientState) (f : Frame) (d : JVal)
    (h : (2, d) ∈ sentFrames (Client._handleGatewayObject c f).2) :
    jsGetField d "compress" = JVal.bool false ∧
    jsGetField d "large_threshold" = JVal.num 100 ∧
    jsGetField d "presence" =
      JVal.obj
        [("since", JVal.null),
         ("status", JVal.str "online"),
         ("game", JVal.null),
         ("afk", JVal.bool false)] := by
  rw [handleGateway_cases] at h
  by_cases h0 : f.op = 0
  · rw [if_pos h0, dispatch_sends_nothing] at h
    exact absurd h (List.not_mem_nil _)
  · rw [if_neg h0] at h
    by_cases h1 : f.op = 1
    · rw [if_pos h1] at h
      unfold Client._heartbeat at h
      split_ifs at h <;> simp [Client.reconnect, sentFrames] at h
    · rw [if_neg h1] at h
      by_cases h7 : f.op = 7
      · rw [if_pos h7] at h
        simp [Client.reconnect, sentFrames] at h
      · rw [if_neg h7] at h
        by_cases h9 : f.op = 9
        · rw [if_pos h9] at h
          cases hs : c.socket <;> simp [hs, sentFrames] at h
        · rw [if_neg h9] at h
          by_cases h10 : f.op = 10
          · rw [if_pos h10] at h
            simp only [Client._handleHello] at h
            split_ifs at h with hr
            · simp [sentFrames] at h
              subst h
              exact ⟨identifyPayload_compress _, identifyPayload_large_threshold _,
                identifyPayload_presence _⟩
            · simp [sentFrames] at h
          · rw [if_neg h10] at h
            by_cases h11 : f.op = 11
            · rw [if_pos h11] at h
              simp [sentFrames] at h
            · rw [if_neg h11] at h
              simp [sentFrames] at h

theorem identify_payload_fields_witness :
    (2, Client.identifyPayload testClient)
      ∈ sentFrames (Client._handleGatewayObject testClient helloFrame).2 ∧
    jsGetField (Client.identifyPayload testClient) "compress" = JVal.bool false ∧
    jsGetField (Client.identifyPayload testClient) "large_threshold" = JVal.num 100 ∧
    jsGetField (Client.identifyPayload testClient) "presence" =
      JVal.obj
        [("since", JVal.null),
         ("status", JVal.str "online"),
         ("game", JVal.null),
         ("afk", JVal.bool false)] :=
  ⟨List.Mem.head _,
   identify_payload_fields testClient helloFrame (Client.identifyPayload testClient)
     (List.Mem.head _)⟩
